import Mathlib

/-!
Shallow embedding of the task store and reminder engine of `bot.py`
(class `TaskManager` and the scheduler coroutine `send_reminders_sync`).

Python `datetime` values are modelled by the `DateTime` structure below;
`datetime.now()` is an injected parameter wherever the source calls it.
Task records are the JSON dictionaries the program stores: timestamps are
kept as strings exactly as persisted, and re-parsed by the same functions
the source uses (`datetime.fromisoformat`, `datetime.strptime` with the
formats `%d.%m.%Y` and `%H:%M`).
-/

namespace TodoBot

/-- A calendar date, as produced by `datetime.date`. -/
structure Date where
  year : Nat
  month : Nat
  day : Nat
deriving DecidableEq

/-- A time of day at minute granularity, as produced by parsing with `%H:%M`
(seconds and microseconds are zero and recorded only on `DateTime`). -/
structure Time where
  hour : Nat
  minute : Nat
deriving DecidableEq

/-- A `datetime.datetime` value: year, month, day, hour, minute, second,
microsecond.  Comparison in Python is lexicographic on these components. -/
structure DateTime where
  year : Nat
  month : Nat
  day : Nat
  hour : Nat
  minute : Nat
  second : Nat
  microsecond : Nat
deriving DecidableEq

/-- The `.date()` projection of a `datetime`. -/
def DateTime.dateOf (dt : DateTime) : Date :=
  ⟨dt.year, dt.month, dt.day⟩

/-- Python's `datetime.combine(date, time)` for a time parsed with `%H:%M`:
seconds and microseconds are zero. -/
def DateTime.combine (d : Date) (t : Time) : DateTime :=
  ⟨d.year, d.month, d.day, t.hour, t.minute, 0, 0⟩

/-- Python's `a <= b` on `datetime`: lexicographic comparison of the
components. -/
def DateTime.le (a b : DateTime) : Bool :=
  if a.year ≠ b.year then Nat.blt a.year b.year
  else if a.month ≠ b.month then Nat.blt a.month b.month
  else if a.day ≠ b.day then Nat.blt a.day b.day
  else if a.hour ≠ b.hour then Nat.blt a.hour b.hour
  else if a.minute ≠ b.minute then Nat.blt a.minute b.minute
  else if a.second ≠ b.second then Nat.blt a.second b.second
  else Nat.ble a.microsecond b.microsecond

/-- Gregorian leap-year rule, as used by Python's calendar validation. -/
def isLeap (y : Nat) : Bool :=
  (y % 4 == 0 && y % 100 != 0) || (y % 400 == 0)

/-- Number of days in a month, used to validate parsed dates exactly as
`datetime.date` construction does. -/
def daysInMonth (y m : Nat) : Nat :=
  if m == 2 then (if isLeap y then 29 else 28)
  else if m == 4 || m == 6 || m == 9 || m == 11 then 30
  else 31

/-- Numeric value of a decimal digit character. -/
def digitVal (c : Char) : Nat :=
  c.toNat - 48

/-- Decimal value of a digit string. -/
def digitsToNat (cs : List Char) : Nat :=
  cs.foldl (fun acc c => acc * 10 + digitVal c) 0

/-- Reads a numeric field of between `minLen` and `maxLen` digits, the way a
`strptime` directive matches a bounded run of digits. -/
def parseNatField (cs : List Char) (minLen maxLen : Nat) : Option Nat :=
  if minLen ≤ cs.length ∧ cs.length ≤ maxLen ∧ cs.all Char.isDigit then
    some (digitsToNat cs)
  else none

/-- Splits a character list on a separator, like `str.split` on one char. -/
def splitOnChar (sep : Char) : List Char → List (List Char)
  | [] => [[]]
  | c :: cs =>
    let r := splitOnChar sep cs
    if c == sep then [] :: r
    else
      match r with
      | [] => [[c]]
      | g :: gs => (c :: g) :: gs

/-- Model of `datetime.strptime(s, "%d.%m.%Y").date()`: one or two digits of
day, a dot, one or two digits of month, a dot, exactly four digits of year;
the day must exist in the month (so `32.13.2024` is rejected). Any other
shape raises `ValueError`, modelled as `none`. -/
def strptimeDate (s : String) : Option Date :=
  match splitOnChar '.' s.toList with
  | [ds, ms, ys] =>
    match parseNatField ds 1 2, parseNatField ms 1 2, parseNatField ys 4 4 with
    | some d, some m, some y =>
      if 1 ≤ m ∧ m ≤ 12 ∧ 1 ≤ d ∧ d ≤ daysInMonth y m then some ⟨y, m, d⟩
      else none
    | _, _, _ => none
  | _ => none

/-- Model of `datetime.strptime(s, "%H:%M").time()`: one or two digits of
hour below 24, a colon, one or two digits of minute below 60 (so `25:61` is
rejected). Any other shape raises `ValueError`, modelled as `none`. -/
def strptimeTime (s : String) : Option Time :=
  match splitOnChar ':' s.toList with
  | [hs, ms] =>
    match parseNatField hs 1 2, parseNatField ms 1 2 with
    | some h, some m =>
      if h ≤ 23 ∧ m ≤ 59 then some ⟨h, m⟩ else none
    | _, _ => none
  | _ => none

/-- Reads exactly `k` digits from the front of a character list. -/
def readDigits (acc : Nat) : Nat → List Char → Option (Nat × List Char)
  | 0, cs => some (acc, cs)
  | k + 1, c :: cs =>
    if c.isDigit then readDigits (acc * 10 + digitVal c) k cs else none
  | _ + 1, [] => none

/-- Consumes one expected character. -/
def expectChar (c : Char) : List Char → Option (List Char)
  | d :: cs => if d == c then some cs else none
  | [] => none

/-- Reads a fractional-second suffix of one to six digits and scales it to
microseconds. -/
def readFraction (cs : List Char) : Option Nat :=
  if 1 ≤ cs.length ∧ cs.length ≤ 6 ∧ cs.all Char.isDigit then
    some (digitsToNat cs * 10 ^ (6 - cs.length))
  else none

/-- Model of `datetime.fromisoformat` on the grammar the program itself
writes with `isoformat()`: `YYYY-MM-DD`, optionally followed by `T` or a
space and `HH:MM`, optionally `:SS`, optionally `.ffffff` (one to six
fractional digits). Component ranges are validated; a malformed string
raises `ValueError`, modelled as `none`. -/
def fromisoformat (s : String) : Option DateTime := do
  let cs := s.toList
  let (y, cs) ← readDigits 0 4 cs
  let cs ← expectChar '-' cs
  let (mo, cs) ← readDigits 0 2 cs
  let cs ← expectChar '-' cs
  let (d, cs) ← readDigits 0 2 cs
  if 1 ≤ mo ∧ mo ≤ 12 ∧ 1 ≤ d ∧ d ≤ daysInMonth y mo then
    match cs with
    | [] => some ⟨y, mo, d, 0, 0, 0, 0⟩
    | sep :: cs =>
      if sep == 'T' || sep == ' ' then do
        let (h, cs) ← readDigits 0 2 cs
        let cs ← expectChar ':' cs
        let (mi, cs) ← readDigits 0 2 cs
        if h ≤ 23 ∧ mi ≤ 59 then
          match cs with
          | [] => some ⟨y, mo, d, h, mi, 0, 0⟩
          | ':' :: cs2 => do
            let (sec, cs3) ← readDigits 0 2 cs2
            if sec ≤ 59 then
              match cs3 with
              | [] => some ⟨y, mo, d, h, mi, sec, 0⟩
              | '.' :: frac => do
                let micro ← readFraction frac
                some ⟨y, mo, d, h, mi, sec, micro⟩
              | _ => none
            else none
          | _ => none
        else none
      else none
  else none

/-- Zero-pads a number to two digits. -/
def pad2 (n : Nat) : String :=
  if n < 10 then "0" ++ toString n else toString n

/-- Zero-pads a number to four digits. -/
def pad4 (n : Nat) : String :=
  if n < 10 then "000" ++ toString n
  else if n < 100 then "00" ++ toString n
  else if n < 1000 then "0" ++ toString n
  else toString n

/-- Zero-pads a number to six digits. -/
def pad6 (n : Nat) : String :=
  if n < 10 then "00000" ++ toString n
  else if n < 100 then "0000" ++ toString n
  else if n < 1000 then "000" ++ toString n
  else if n < 10000 then "00" ++ toString n
  else if n < 100000 then "0" ++ toString n
  else toString n

/-- Model of `datetime.isoformat()`: `YYYY-MM-DDTHH:MM:SS` with the
`.ffffff` microsecond suffix present exactly when microseconds are
nonzero, as in Python. -/
def DateTime.isoformat (dt : DateTime) : String :=
  pad4 dt.year ++ "-" ++ pad2 dt.month ++ "-" ++ pad2 dt.day ++ "T" ++
    pad2 dt.hour ++ ":" ++ pad2 dt.minute ++ ":" ++ pad2 dt.second ++
    (if dt.microsecond == 0 then "" else "." ++ pad6 dt.microsecond)

/-- A task record, with the fields `add_task` stores in `tasks.json`.
Timestamps are the strings the program persists; `completed_at` and the
schedule fields are `None` when absent. -/
structure Task where
  id : Int
  text : String
  user_id : Int
  priority : String
  completed : Bool
  created_at : String
  completed_at : Option String
  scheduled_date : Option String
  scheduled_time : Option String
deriving DecidableEq

/-- Python truthiness of an optional stored string, as tested by
`task.get(...)`: `None` and the empty string are falsy. -/
def truthy : Option String → Bool
  | none => false
  | some s => !(s == "")

/-- TaskManager.add_task: appends a new record with id `len(self.tasks) + 1`,
`created_at` set from the injected clock, and returns the new id. The
source performs no validation of any argument. The save that follows the
append is modelled separately (`save_tasks`); it cannot change the
in-memory list. -/
def add_task (now : DateTime) (text : String) (user_id : Int) (priority : String)
    (scheduled_date scheduled_time : Option String) (tasks : List Task) :
    List Task × Int :=
  let task_id : Int := (tasks.length : Int) + 1
  (tasks ++ [{ id := task_id, text := text, user_id := user_id,
               priority := priority, completed := false,
               created_at := DateTime.isoformat now, completed_at := none,
               scheduled_date := scheduled_date,
               scheduled_time := scheduled_time }],
   task_id)

/-- TaskManager.get_user_tasks: the owner's tasks in stored order, optionally
filtered by completion status. -/
def get_user_tasks (user_id : Int) (completed : Option Bool) (tasks : List Task) :
    List Task :=
  match completed with
  | none => tasks.filter (fun t => t.user_id == user_id)
  | some c => tasks.filter (fun t => t.user_id == user_id && t.completed == c)

/-- TaskManager.mark_task_done: finds the first record matching both id and
owner, sets `completed` and overwrites `completed_at` from the clock, and
returns `True`; returns `False` only when no record matches. The source
does not test whether the task is already completed. -/
def mark_task_done (now : DateTime) (user_id task_id : Int) :
    List Task → Bool × List Task
  | [] => (false, [])
  | t :: rest =>
    if t.id == task_id && t.user_id == user_id then
      (true, { t with completed := true,
                      completed_at := some (DateTime.isoformat now) } :: rest)
    else
      let r := mark_task_done now user_id task_id rest
      (r.1, t :: r.2)

/-- TaskManager.get_today_tasks: scans the owner's uncompleted tasks; a task
is collected when its `created_at` date equals today, or otherwise when its
`scheduled_date` is truthy and parses with `%d.%m.%Y` to today (a
`ValueError` from that parse is caught and the task skipped). The call to
`datetime.fromisoformat(task["created_at"])` is not guarded: a malformed
`created_at` raises, modelled by the `Except.error` result carrying the
offending string. -/
def get_today_tasks (today : Date) (user_id : Int) :
    List Task → Except String (List Task)
  | [] => .ok []
  | t :: rest =>
    if t.user_id == user_id && t.completed == false then
      match fromisoformat t.created_at with
      | none => .error t.created_at
      | some dt =>
        let keep : Bool :=
          if dt.dateOf == today then true
          else if truthy t.scheduled_date then
            match t.scheduled_date with
            | some s =>
              (match strptimeDate s with
               | some d => d == today
               | none => false)
            | none => false
          else false
        match get_today_tasks today user_id rest with
        | .ok r => .ok (if keep then t :: r else r)
        | .error e => .error e
    else get_today_tasks today user_id rest

/-- TaskManager.get_scheduled_tasks membership test: uncompleted with truthy
`scheduled_date` and `scheduled_time`. -/
def inFeed (t : Task) : Bool :=
  !t.completed && truthy t.scheduled_date && truthy t.scheduled_time

/-- The due instant of a task inside the scheduler loop: both schedule
strings parsed with `%d.%m.%Y` and `%H:%M` and combined with
`datetime.combine`; `none` when either parse raises `ValueError`. -/
def dueInstant (t : Task) : Option DateTime :=
  match t.scheduled_date, t.scheduled_time with
  | some sd, some st =>
    (match strptimeDate sd, strptimeTime st with
     | some d, some tm => some (DateTime.combine d tm)
     | _, _ => none)
  | _, _ => none

/-- Clearing of the schedule fields after a delivered reminder
(`task["scheduled_date"] = None; task["scheduled_time"] = None`). -/
def clearSchedule (t : Task) : Task :=
  { t with scheduled_date := none, scheduled_time := none }

/-- Outcome of one scheduler tick: the task list after the tick, the tasks
whose reminder was delivered, and whether an exception escaped the loop. -/
structure TickResult where
  tasks : List Task
  sent : List Task
  aborted : Bool
deriving DecidableEq

/-- The coroutine `send_reminders_sync`, run once with the tick's single
`now` snapshot. The source first collects `get_scheduled_tasks()` (dict
references into `self.tasks`) and then processes them in order, so the
effect on the stored list is element-wise and order-preserving, which is
how it is embedded here. Per feed element: re-check truthiness of the two
schedule fields; parse them — a `ValueError` is caught by the loop's
`except ValueError: continue`, skipping only that task; when
`now >= task_datetime`, call the notifier (`bot.send_message`, modelled by
the oracle `notifOk`) — a delivery failure raises a non-`ValueError`
exception that the loop does not catch, so the coroutine aborts: that task
and every later one are left untouched; on success the schedule fields are
cleared (and the store saved, which never alters memory). -/
def send_reminders_sync (notifOk : Task → Bool) (now : DateTime) :
    List Task → TickResult
  | [] => { tasks := [], sent := [], aborted := false }
  | t :: rest =>
    if inFeed t then
      match dueInstant t with
      | none =>
        let r := send_reminders_sync notifOk now rest
        { tasks := t :: r.tasks, sent := r.sent, aborted := r.aborted }
      | some due =>
        if DateTime.le due now then
          if notifOk t then
            let r := send_reminders_sync notifOk now rest
            { tasks := clearSchedule t :: r.tasks, sent := t :: r.sent,
              aborted := r.aborted }
          else
            { tasks := t :: rest, sent := [], aborted := true }
        else
          let r := send_reminders_sync notifOk now rest
          { tasks := t :: r.tasks, sent := r.sent, aborted := r.aborted }
    else
      let r := send_reminders_sync notifOk now rest
      { tasks := t :: r.tasks, sent := r.sent, aborted := r.aborted }

/-- Whether one tick with snapshot `now` fires a reminder for `t` (given a
notifier that delivers): in the feed, both fields parse, and the combined
instant is not after `now`. -/
def fires (now : DateTime) (t : Task) : Bool :=
  inFeed t &&
    (match dueInstant t with
     | some due => DateTime.le due now
     | none => false)

/-- TaskManager.save_tasks: writes the whole in-memory list to disk inside
`try ... except Exception: logger.error(...)`. The catch-all handler means
no failure ever escapes to the caller, so the embedded result's second
component — did an error reach the caller — is identically `false`;
`writeOk` says whether the disk write itself succeeded. The in-memory list
is not touched in either case. -/
def save_tasks (writeOk : Bool) (tasks disk : List Task) : List Task × Bool :=
  if writeOk then (tasks, false) else (disk, false)

/-- Result of a mutating operation together with its persistence effect. -/
structure PersistResult where
  memory : List Task
  disk : List Task
  returnedId : Int
  errorSignalled : Bool
deriving DecidableEq

/-- add_task followed by its `self.save_tasks()` call, against a disk whose
write may fail. -/
def add_task_persist (writeOk : Bool) (now : DateTime) (text : String)
    (user_id : Int) (priority : String) (scheduled_date scheduled_time : Option String)
    (tasks disk : List Task) : PersistResult :=
  let p := add_task now text user_id priority scheduled_date scheduled_time tasks
  let w := save_tasks writeOk p.1 disk
  { memory := p.1, disk := w.1, returnedId := p.2, errorSignalled := w.2 }

/-- mark_task_done with its conditional `self.save_tasks()` call (the save
runs only on the successful branch). Returns memory, disk, the boolean the
operation returns, and whether a save failure reached the caller. -/
def mark_task_done_persist (writeOk : Bool) (now : DateTime) (user_id task_id : Int)
    (tasks disk : List Task) : List Task × List Task × Bool × Bool :=
  let p := mark_task_done now user_id task_id tasks
  if p.1 then
    let w := save_tasks writeOk p.2 disk
    (p.2, w.1, true, w.2)
  else (p.2, disk, false, false)

/-- Arguments of one call to `add_task`. -/
structure CreateReq where
  now : DateTime
  text : String
  user_id : Int
  priority : String
  scheduled_date : Option String
  scheduled_time : Option String

/-- The ids returned by a sequence of `add_task` calls performed in order on
one store instance. -/
def applyCreates : List Task → List CreateReq → List Int
  | _, [] => []
  | tasks, r :: rs =>
    let p := add_task r.now r.text r.user_id r.priority r.scheduled_date
      r.scheduled_time tasks
    p.2 :: applyCreates p.1 rs

/-- The membership predicate get_today_tasks realises, read off the scan:
owned, uncompleted and either created today or carrying a schedule string
that parses to today. -/
def dueTodayPred (today : Date) (user_id : Int) (t : Task) : Bool :=
  t.user_id == user_id && t.completed == false &&
    ((match fromisoformat t.created_at with
      | some dt => dt.dateOf == today
      | none => false) ||
     (truthy t.scheduled_date &&
      (match t.scheduled_date with
       | some s =>
         (match strptimeDate s with
          | some d => d == today
          | none => false)
       | none => false)))

/-- Concrete scheduled task used to instantiate the C1 theorem. -/
def c1task : Task :=
  { id := 1, text := "meeting", user_id := 7, priority := "высокий",
    completed := false, created_at := "2024-01-19T09:00:00", completed_at := none,
    scheduled_date := some "20.01.2024", scheduled_time := some "15:00" }

/-- Concrete task used by the C2 evaluation. -/
def c2task : Task :=
  { id := 1, text := "buy milk", user_id := 7, priority := "средний",
    completed := false, created_at := "2024-01-20T09:00:00", completed_at := none,
    scheduled_date := none, scheduled_time := none }

/-- Due task whose delivery fails in the C4 scenario. -/
def c4bad : Task :=
  { id := 101, text := "first", user_id := 7, priority := "средний",
    completed := false, created_at := "2024-01-19T09:00:00", completed_at := none,
    scheduled_date := some "20.01.2024", scheduled_time := some "15:00" }

/-- Due task behind the failing one in the C4 scenario; its own delivery
would succeed. -/
def c4good : Task :=
  { id := 102, text := "second", user_id := 8, priority := "средний",
    completed := false, created_at := "2024-01-19T09:00:00", completed_at := none,
    scheduled_date := some "20.01.2024", scheduled_time := some "15:00" }

/-- C6 sample: created today, no schedule, uncompleted. -/
def c6created : Task :=
  { id := 1, text := "a", user_id := 7, priority := "средний",
    completed := false, created_at := "2024-01-20T09:00:00", completed_at := none,
    scheduled_date := none, scheduled_time := none }

/-- C6 sample: created yesterday but scheduled for today. -/
def c6scheduled : Task :=
  { id := 2, text := "b", user_id := 7, priority := "средний",
    completed := false, created_at := "2024-01-19T09:00:00", completed_at := none,
    scheduled_date := some "20.01.2024", scheduled_time := some "15:00" }

/-- C6 sample: created today but already completed. -/
def c6done : Task :=
  { id := 3, text := "c", user_id := 7, priority := "средний",
    completed := true, created_at := "2024-01-20T09:00:00",
    completed_at := some "2024-01-20T10:00:00",
    scheduled_date := none, scheduled_time := none }

/-- C6 sample: malformed stored schedule date, skipped by the scan. -/
def c6malformed : Task :=
  { id := 4, text := "d", user_id := 7, priority := "средний",
    completed := false, created_at := "2024-01-19T09:00:00", completed_at := none,
    scheduled_date := some "not a date", scheduled_time := none }

/-- Concrete task used by the C7 witness: owned by user 7. -/
def c7task : Task :=
  { id := 1, text := "mine", user_id := 7, priority := "низкий",
    completed := false, created_at := "2024-01-20T09:00:00", completed_at := none,
    scheduled_date := none, scheduled_time := none }

/-- Concrete task with an unparsable `created_at`, used by the C10 witness. -/
def c10task : Task :=
  { id := 1, text := "broken", user_id := 7, priority := "средний",
    completed := false, created_at := "garbage", completed_at := none,
    scheduled_date := none, scheduled_time := none }

/-!  Helper lemmas shared by the claim theorems. -/

/-- A date string that parses with `%d.%m.%Y` is nonempty, hence truthy. -/
theorem truthy_of_strptimeDate (s : String) (d : Date)
    (h : strptimeDate s = some d) : truthy (some s) = true := by
  have hne : s ≠ "" := by
    intro he
    rw [he] at h
    have h0 : strptimeDate "" = none := rfl
    rw [h0] at h
    exact Option.noConfusion h
  simp [truthy, hne]

/-- A time string that parses with `%H:%M` is nonempty, hence truthy. -/
theorem truthy_of_strptimeTime (s : String) (tm : Time)
    (h : strptimeTime s = some tm) : truthy (some s) = true := by
  have hne : s ≠ "" := by
    intro he
    rw [he] at h
    have h0 : strptimeTime "" = none := rfl
    rw [h0] at h
    exact Option.noConfusion h
  simp [truthy, hne]

/-- A tick whose notifier always delivers clears exactly the due tasks,
sends exactly for the due tasks, and never aborts. -/
theorem send_reminders_sync_allOk (now : DateTime) (s : List Task) :
    send_reminders_sync (fun _ => true) now s =
      { tasks := s.map (fun t => if fires now t then clearSchedule t else t),
        sent := s.filter (fires now),
        aborted := false } := by
  induction s with
  | nil => rfl
  | cons t rest ih =>
    cases hF : inFeed t with
    | false =>
      have hf : fires now t = false := by simp [fires, hF]
      simp [send_reminders_sync, hF, ih, hf]
    | true =>
      cases hD : dueInstant t with
      | none =>
        have hf : fires now t = false := by simp [fires, hF, hD]
        simp [send_reminders_sync, hF, hD, ih, hf]
      | some due =>
        cases hL : DateTime.le due now with
        | false =>
          have hf : fires now t = false := by simp [fires, hF, hD, hL]
          simp [send_reminders_sync, hF, hD, hL, ih, hf]
        | true =>
          have hf : fires now t = true := by simp [fires, hF, hD, hL]
          simp [send_reminders_sync, hF, hD, hL, ih, hf]

/-- Every task a tick sends for was in the scheduler feed. -/
theorem sent_mem_inFeed (f : Task → Bool) (now : DateTime) :
    ∀ (s : List Task) (u : Task),
      u ∈ (send_reminders_sync f now s).sent → inFeed u = true := by
  intro s
  induction s with
  | nil =>
    intro u h
    simp [send_reminders_sync] at h
  | cons t rest ih =>
    intro u h
    by_cases hF : inFeed t
    · cases hD : dueInstant t with
      | none =>
        rw [show send_reminders_sync f now (t :: rest) =
              { tasks := t :: (send_reminders_sync f now rest).tasks,
                sent := (send_reminders_sync f now rest).sent,
                aborted := (send_reminders_sync f now rest).aborted } by
              simp [send_reminders_sync, hF, hD]] at h
        exact ih u h
      | some due =>
        cases hL : DateTime.le due now with
        | false =>
          rw [show send_reminders_sync f now (t :: rest) =
                { tasks := t :: (send_reminders_sync f now rest).tasks,
                  sent := (send_reminders_sync f now rest).sent,
                  aborted := (send_reminders_sync f now rest).aborted } by
                simp [send_reminders_sync, hF, hD, hL]] at h
          exact ih u h
        | true =>
          cases hN : f t with
          | false =>
            rw [show send_reminders_sync f now (t :: rest) =
                  { tasks := t :: rest, sent := [], aborted := true } by
                  simp [send_reminders_sync, hF, hD, hL, hN]] at h
            simp at h
          | true =>
            rw [show send_reminders_sync f now (t :: rest) =
                  { tasks := clearSchedule t :: (send_reminders_sync f now rest).tasks,
                    sent := t :: (send_reminders_sync f now rest).sent,
                    aborted := (send_reminders_sync f now rest).aborted } by
                  simp [send_reminders_sync, hF, hD, hL, hN]] at h
            rcases List.mem_cons.mp h with h1 | h2
            · rw [h1]; exact hF
            · exact ih u h2
    · rw [show send_reminders_sync f now (t :: rest) =
            { tasks := t :: (send_reminders_sync f now rest).tasks,
              sent := (send_reminders_sync f now rest).sent,
              aborted := (send_reminders_sync f now rest).aborted } by
            simp [send_reminders_sync, hF]] at h
      exact ih u h

/-- A task with cleared schedule fields is never in the feed. -/
theorem inFeed_clearSchedule (t : Task) : inFeed (clearSchedule t) = false := by
  simp [inFeed, clearSchedule, truthy]

/-- C1: for an uncompleted task at position `i` whose schedule fields are
both present and parse, a scheduler tick (with a delivering notifier)
sends its reminder iff the tick's single `now` snapshot is at or past the
combined due instant; on sending it clears both schedule fields but keeps
the task (the store keeps its length and the record stays at its
position); a task whose instant is strictly in the future is unchanged;
and once cleared, no tick — any notifier, any snapshot, any store — ever
sends for the cleared record again. -/
theorem c1_each_schedule_fires_at_most_once (now : DateTime) (s : List Task)
    (i : Nat) (hi : i < s.length) (t : Task) (ht : s.get ⟨i, hi⟩ = t)
    (hc : t.completed = false) (sd st : String)
    (hsd : t.scheduled_date = some sd) (hst : t.scheduled_time = some st)
    (d : Date) (tm : Time)
    (hpd : strptimeDate sd = some d) (hpt : strptimeTime st = some tm) :
    (t ∈ (send_reminders_sync (fun _ => true) now s).sent ↔
       DateTime.le (DateTime.combine d tm) now = true) ∧
    (send_reminders_sync (fun _ => true) now s).tasks.length = s.length ∧
    (∀ hi2 : i < (send_reminders_sync (fun _ => true) now s).tasks.length,
       (send_reminders_sync (fun _ => true) now s).tasks.get ⟨i, hi2⟩ =
         if DateTime.le (DateTime.combine d tm) now then clearSchedule t else t) ∧
    (∀ (f : Task → Bool) (now2 : DateTime) (s2 : List Task),
       clearSchedule t ∉ (send_reminders_sync f now2 s2).sent) := by
  have hFeed : inFeed t = true := by
    simp [inFeed, hc, hsd, hst, truthy_of_strptimeDate sd d hpd,
      truthy_of_strptimeTime st tm hpt]
  have hDue : dueInstant t = some (DateTime.combine d tm) := by
    simp [dueInstant, hsd, hst, hpd, hpt]
  have hfires : fires now t = DateTime.le (DateTime.combine d tm) now := by
    simp [fires, hFeed, hDue]
  have hok := send_reminders_sync_allOk now s
  have hmem : t ∈ s := ht ▸ List.get_mem s i hi
  refine ⟨?_, ?_, ?_, ?_⟩
  · rw [hok]
    simp only [List.mem_filter]
    constructor
    · intro h
      rw [← hfires]
      exact h.2
    · intro h
      exact ⟨hmem, by rw [hfires]; exact h⟩
  · rw [hok]
    simp
  · intro hi2
    have htasks : (send_reminders_sync (fun _ => true) now s).tasks =
        s.map (fun u => if fires now u then clearSchedule u else u) := by rw [hok]
    rw [List.get_eq_getElem] at ht ⊢
    rw [List.getElem_of_eq htasks hi2]
    simp only [List.getElem_map]
    rw [ht, hfires]
  · intro f now2 s2 hmem2
    have := sent_mem_inFeed f now2 s2 (clearSchedule t) hmem2
    rw [inFeed_clearSchedule] at this
    exact Bool.noConfusion this

/-- C1 witness: the theorem applied to a one-task store holding a task
scheduled for 20.01.2024 15:00, with the tick's snapshot thirty seconds
past that instant. -/
theorem c1_witness :
    c1task.completed = false ∧
    strptimeDate "20.01.2024" = some ⟨2024, 1, 20⟩ ∧
    strptimeTime "15:00" = some ⟨15, 0⟩ ∧
    ((c1task ∈ (send_reminders_sync (fun _ => true) ⟨2024, 1, 20, 15, 0, 30, 0⟩
        [c1task]).sent ↔
      DateTime.le (DateTime.combine ⟨2024, 1, 20⟩ ⟨15, 0⟩)
        ⟨2024, 1, 20, 15, 0, 30, 0⟩ = true) ∧
     (send_reminders_sync (fun _ => true) ⟨2024, 1, 20, 15, 0, 30, 0⟩
        [c1task]).tasks.length = [c1task].length ∧
     (∀ hi2 : 0 < (send_reminders_sync (fun _ => true) ⟨2024, 1, 20, 15, 0, 30, 0⟩
        [c1task]).tasks.length,
        (send_reminders_sync (fun _ => true) ⟨2024, 1, 20, 15, 0, 30, 0⟩
          [c1task]).tasks.get ⟨0, hi2⟩ =
          if DateTime.le (DateTime.combine ⟨2024, 1, 20⟩ ⟨15, 0⟩)
              ⟨2024, 1, 20, 15, 0, 30, 0⟩ then clearSchedule c1task else c1task) ∧
     (∀ (f : Task → Bool) (now2 : DateTime) (s2 : List Task),
        clearSchedule c1task ∉ (send_reminders_sync f now2 s2).sent)) :=
  ⟨rfl, rfl, rfl,
   c1_each_schedule_fires_at_most_once ⟨2024, 1, 20, 15, 0, 30, 0⟩ [c1task]
     0 (by decide) c1task rfl rfl "20.01.2024" "15:00" rfl rfl
     ⟨2024, 1, 20⟩ ⟨15, 0⟩ rfl rfl⟩

/-- C2: evaluation of `mark_task_done` twice in succession on the same
uncompleted task. Both calls return `true` (the source never tests
`task["completed"]` before marking), and `completed_at` is overwritten by
the second call — against the claimed `true` then `false` with
`completedAt` set exactly once. -/
theorem c2_second_complete_returns_true :
    (mark_task_done ⟨2024, 1, 20, 10, 0, 0, 0⟩ 7 1 [c2task]).1 = true ∧
    (mark_task_done ⟨2024, 1, 20, 11, 0, 0, 0⟩ 7 1
      (mark_task_done ⟨2024, 1, 20, 10, 0, 0, 0⟩ 7 1 [c2task]).2).1 = true ∧
    ((mark_task_done ⟨2024, 1, 20, 10, 0, 0, 0⟩ 7 1 [c2task]).2.head?.bind
      (fun t => t.completed_at)) = some "2024-01-20T10:00:00" ∧
    ((mark_task_done ⟨2024, 1, 20, 11, 0, 0, 0⟩ 7 1
      (mark_task_done ⟨2024, 1, 20, 10, 0, 0, 0⟩ 7 1 [c2task]).2).2.head?.bind
      (fun t => t.completed_at)) = some "2024-01-20T11:00:00" :=
  ⟨rfl, rfl, rfl, rfl⟩

/-- C3 counterexample: creating a task with empty text succeeds — the call
returns id 1 instead of failing — and the empty-text task does appear in
the subsequent `get_user_tasks` (ListByOwner) result. -/
theorem c3_counterexample_empty_text_accepted :
    (add_task ⟨2024, 1, 20, 9, 0, 0, 0⟩ "" 7 "средний" none none []).2 = 1 ∧
    (get_user_tasks 7 none
        (add_task ⟨2024, 1, 20, 9, 0, 0, 0⟩ "" 7 "средний" none none []).1).map
      (fun t => t.text) = [""] :=
  ⟨rfl, rfl⟩

/-- C3 amended: `add_task` performs no validation and cannot fail — any
text (empty included), any priority string, and any schedule strings,
partially specified or unparsable, are accepted; the record is appended,
the id `length + 1` is returned, and the new task appears in every
subsequent `get_user_tasks` call for its owner. (Date and time format
checks exist only in the `/schedule` command handler, outside the store.) -/
theorem c3_amended_create_never_validates (now : DateTime) (text : String)
    (uid : Int) (pr : String) (sd st : Option String) (tasks : List Task) :
    (add_task now text uid pr sd st tasks).2 = (tasks.length : Int) + 1 ∧
    (add_task now text uid pr sd st tasks).1 =
      tasks ++ [{ id := (tasks.length : Int) + 1, text := text, user_id := uid,
                  priority := pr, completed := false,
                  created_at := DateTime.isoformat now, completed_at := none,
                  scheduled_date := sd, scheduled_time := st }] ∧
    { id := (tasks.length : Int) + 1, text := text, user_id := uid,
      priority := pr, completed := false,
      created_at := DateTime.isoformat now, completed_at := none,
      scheduled_date := sd, scheduled_time := st } ∈
      get_user_tasks uid none (add_task now text uid pr sd st tasks).1 := by
  refine ⟨rfl, rfl, ?_⟩
  simp [get_user_tasks, add_task, List.mem_filter]

/-- C4 counterexample: two due tasks in one tick, the notifier failing on
the first. The tick aborts: neither task is modified and nothing is sent,
although the second task is due and its own delivery (second conjunct)
would succeed — the claim that remaining tasks of the tick are still
processed is false. -/
theorem c4_counterexample_delivery_failure_aborts_batch :
    send_reminders_sync (fun t => !(t.id == 101)) ⟨2024, 1, 20, 15, 0, 30, 0⟩
        [c4bad, c4good] =
      { tasks := [c4bad, c4good], sent := [], aborted := true } ∧
    send_reminders_sync (fun t => !(t.id == 101)) ⟨2024, 1, 20, 15, 0, 30, 0⟩
        [c4good] =
      { tasks := [clearSchedule c4good], sent := [c4good], aborted := false } :=
  ⟨rfl, rfl⟩

/-- C4 amended: within one tick, a parse failure on a task's stored
date/time strings is isolated — the task is skipped and the rest of the
scan proceeds exactly as it would without it. A notifier delivery failure
on a due task leaves that task's schedule fields intact, but the exception
aborts the remainder of the tick: the failed task and every later task are
left untouched and nothing more is sent that tick. The failed task is
retried by a later tick: any tick whose snapshot is still at or past the
due instant and whose delivery succeeds sends its reminder. -/
theorem c4_amended_parse_isolated_delivery_aborts (f : Task → Bool)
    (now : DateTime) (t : Task) (rest : List Task) (hFeed : inFeed t = true) :
    (dueInstant t = none →
       send_reminders_sync f now (t :: rest) =
         { tasks := t :: (send_reminders_sync f now rest).tasks,
           sent := (send_reminders_sync f now rest).sent,
           aborted := (send_reminders_sync f now rest).aborted }) ∧
    (∀ due, dueInstant t = some due → DateTime.le due now = true → f t = false →
       send_reminders_sync f now (t :: rest) =
         { tasks := t :: rest, sent := [], aborted := true }) ∧
    (∀ due now2, dueInstant t = some due → DateTime.le due now2 = true →
       t ∈ (send_reminders_sync (fun _ => true) now2 (t :: rest)).sent) := by
  refine ⟨?_, ?_, ?_⟩
  · intro hD
    simp [send_reminders_sync, hFeed, hD]
  · intro due hD hL hN
    simp [send_reminders_sync, hFeed, hD, hL, hN]
  · intro due now2 hD hL
    have hf : fires now2 t = true := by simp [fires, hFeed, hD, hL]
    rw [send_reminders_sync_allOk]
    simp only [List.mem_filter]
    exact ⟨List.mem_cons_self t rest, hf⟩

/-- C4 witness: the amended theorem applied to the failing-notifier
scenario of the counterexample, with the unparsable-date case exercised on
a variant of the same task. -/
theorem c4_amended_witness :
    inFeed c4bad = true ∧
    dueInstant c4bad = some ⟨2024, 1, 20, 15, 0, 0, 0⟩ ∧
    DateTime.le ⟨2024, 1, 20, 15, 0, 0, 0⟩ ⟨2024, 1, 20, 15, 0, 30, 0⟩ = true ∧
    (fun t => !(t.id == 101)) c4bad = false ∧
    send_reminders_sync (fun t => !(t.id == 101)) ⟨2024, 1, 20, 15, 0, 30, 0⟩
        [c4bad, c4good] =
      { tasks := [c4bad] ++ [c4good], sent := [], aborted := true } ∧
    c4bad ∈ (send_reminders_sync (fun _ => true) ⟨2024, 1, 20, 15, 0, 30, 0⟩
      [c4bad, c4good]).sent :=
  ⟨rfl, rfl, rfl, rfl,
   (c4_amended_parse_isolated_delivery_aborts (fun t => !(t.id == 101))
       ⟨2024, 1, 20, 15, 0, 30, 0⟩ c4bad [c4good] rfl).2.1
     ⟨2024, 1, 20, 15, 0, 0, 0⟩ rfl rfl rfl,
   (c4_amended_parse_isolated_delivery_aborts (fun t => !(t.id == 101))
       ⟨2024, 1, 20, 15, 0, 30, 0⟩ c4bad [c4good] rfl).2.2
     ⟨2024, 1, 20, 15, 0, 0, 0⟩ ⟨2024, 1, 20, 15, 0, 30, 0⟩ rfl rfl⟩

/-- Every id issued by a creation sequence is strictly larger than the
length of the store the sequence started from. -/
theorem applyCreates_gt (rs : List CreateReq) :
    ∀ (tasks : List Task) (x : Int),
      x ∈ applyCreates tasks rs → (tasks.length : Int) < x := by
  induction rs with
  | nil =>
    intro tasks x hx
    simp [applyCreates] at hx
  | cons r rs ih =>
    intro tasks x hx
    simp only [applyCreates] at hx
    rcases List.mem_cons.mp hx with h1 | h2
    · rw [h1]
      simp [add_task]
    · have hx2 := ih _ x h2
      have hlen : (((add_task r.now r.text r.user_id r.priority r.scheduled_date
          r.scheduled_time tasks).1.length : Int)) = (tasks.length : Int) + 1 := by
        simp [add_task]
      rw [hlen] at hx2
      omega

/-- C5: along any sequence of creations on one store instance, each
returned id is strictly greater than every id issued before it (so ids are
never duplicated among issued ids); and a creation never rewrites an
existing record, so no existing id is ever reassigned. -/
theorem c5_ids_strictly_increase (tasks : List Task) (rs : List CreateReq) :
    (applyCreates tasks rs).Pairwise (fun a b => a < b) ∧
    ∀ (r : CreateReq) (s : List Task),
      (add_task r.now r.text r.user_id r.priority r.scheduled_date
        r.scheduled_time s).1.take s.length = s := by
  constructor
  · induction rs generalizing tasks with
    | nil => simp [applyCreates]
    | cons r rs ih =>
      simp only [applyCreates]
      refine List.Pairwise.cons ?_ (ih _)
      intro b hb
      have hx2 := applyCreates_gt rs _ b hb
      have hlen : (((add_task r.now r.text r.user_id r.priority r.scheduled_date
          r.scheduled_time tasks).1.length : Int)) = (tasks.length : Int) + 1 := by
        simp [add_task]
      rw [hlen] at hx2
      have hid : (add_task r.now r.text r.user_id r.priority r.scheduled_date
          r.scheduled_time tasks).2 = (tasks.length : Int) + 1 := by
        simp [add_task]
      rw [hid]
      exact hx2
  · intro r s
    simp [add_task, List.take_left]

/-- C6: when every uncompleted task of the owner carries a well-formed
`created_at` (the case C10 carves out), `get_today_tasks` returns, in
stored order, exactly the owner's uncompleted tasks that were created
today or whose schedule string parses to today — either condition alone
suffices, tasks with a malformed `scheduled_date` are skipped without an
error, and completed tasks are excluded. -/
theorem c6_tasks_due_today (today : Date) (uid : Int) (tasks : List Task)
    (h : ∀ t ∈ tasks, t.user_id = uid → t.completed = false →
           (fromisoformat t.created_at).isSome = true) :
    get_today_tasks today uid tasks =
      .ok (tasks.filter (dueTodayPred today uid)) := by
  induction tasks with
  | nil => rfl
  | cons t rest ih =>
    have hrest : ∀ u ∈ rest, u.user_id = uid → u.completed = false →
        (fromisoformat u.created_at).isSome = true :=
      fun u hu => h u (List.mem_cons_of_mem t hu)
    have ihr := ih hrest
    by_cases hu : t.user_id = uid
    · cases hc : t.completed with
      | true =>
        have hpred : dueTodayPred today uid t = false := by
          simp [dueTodayPred, hc]
        simp [get_today_tasks, hc, List.filter_cons, hpred, ihr]
      | false =>
        have hsome := h t (List.mem_cons_self t rest) hu hc
        obtain ⟨dt, hdt⟩ := Option.isSome_iff_exists.mp hsome
        cases hc1 : (dt.dateOf == today) with
        | true =>
          have hpred : dueTodayPred today uid t = true := by
            simp [dueTodayPred, hu, hc, hdt, hc1]
          simp [get_today_tasks, hu, hc, hdt, hc1, ihr, List.filter_cons, hpred]
        | false =>
          cases hsd : t.scheduled_date with
          | none =>
            have hpred : dueTodayPred today uid t = false := by
              simp [dueTodayPred, hdt, hc1, hsd, truthy]
            simp [get_today_tasks, hu, hc, hdt, hc1, hsd, truthy, ihr,
              List.filter_cons, hpred]
          | some s =>
            cases hb : truthy (some s) with
            | false =>
              have hpred : dueTodayPred today uid t = false := by
                simp [dueTodayPred, hdt, hc1, hsd, hb]
              simp [get_today_tasks, hu, hc, hdt, hc1, hsd, hb, ihr,
                List.filter_cons, hpred]
            | true =>
              cases hps : strptimeDate s with
              | none =>
                have hpred : dueTodayPred today uid t = false := by
                  simp [dueTodayPred, hdt, hc1, hsd, hb, hps]
                simp [get_today_tasks, hu, hc, hdt, hc1, hsd, hb, hps, ihr,
                  List.filter_cons, hpred]
              | some d =>
                cases hd : (d == today) with
                | true =>
                  have hpred : dueTodayPred today uid t = true := by
                    simp [dueTodayPred, hu, hc, hdt, hsd, hb, hps, hd]
                  simp [get_today_tasks, hu, hc, hdt, hc1, hsd, hb, hps, hd,
                    ihr, List.filter_cons, hpred]
                | false =>
                  have hpred : dueTodayPred today uid t = false := by
                    simp [dueTodayPred, hdt, hc1, hsd, hb, hps, hd]
                  simp [get_today_tasks, hu, hc, hdt, hc1, hsd, hb, hps, hd,
                    ihr, List.filter_cons, hpred]
    · have hpred : dueTodayPred today uid t = false := by
        simp [dueTodayPred, hu]
      simp [get_today_tasks, hu, List.filter_cons, hpred, ihr]

/-- C6 witness: the theorem applied to a store holding a task created
today, a task created yesterday but scheduled for today, a completed task
created today, and a task with a malformed schedule string; the scan keeps
exactly the first two. -/
theorem c6_witness :
    (∀ t ∈ [c6created, c6scheduled, c6done, c6malformed], t.user_id = 7 →
       t.completed = false → (fromisoformat t.created_at).isSome = true) ∧
    [c6created, c6scheduled, c6done, c6malformed].filter
      (dueTodayPred ⟨2024, 1, 20⟩ 7) = [c6created, c6scheduled] ∧
    get_today_tasks ⟨2024, 1, 20⟩ 7 [c6created, c6scheduled, c6done, c6malformed] =
      .ok ([c6created, c6scheduled, c6done, c6malformed].filter
        (dueTodayPred ⟨2024, 1, 20⟩ 7)) :=
  ⟨by decide, rfl,
   c6_tasks_due_today ⟨2024, 1, 20⟩ 7
     [c6created, c6scheduled, c6done, c6malformed] (by decide)⟩

/-- C7: completing an id that matches no record, or whose record belongs
to a different owner, returns `false` and leaves the store exactly as it
was. -/
theorem c7_complete_foreign_or_missing_id (now : DateTime) (uid tid : Int)
    (tasks : List Task) (h : ∀ t ∈ tasks, ¬(t.id = tid ∧ t.user_id = uid)) :
    mark_task_done now uid tid tasks = (false, tasks) := by
  induction tasks with
  | nil => rfl
  | cons t rest ih =>
    have hcond : (t.id == tid && t.user_id == uid) = false := by
      by_cases h1 : t.id = tid
      · by_cases h2 : t.user_id = uid
        · exact absurd ⟨h1, h2⟩ (h t (List.mem_cons_self t rest))
        · simp [h1, h2]
      · simp [h1]
    have ihr := ih (fun u hu => h u (List.mem_cons_of_mem t hu))
    simp [mark_task_done, hcond, ihr]

/-- C7 witness: the theorem applied to a one-task store owned by user 7,
completed by user 8 with the task's own id. -/
theorem c7_witness :
    (∀ t ∈ [c7task], ¬(t.id = 1 ∧ t.user_id = 8)) ∧
    mark_task_done ⟨2024, 1, 20, 10, 0, 0, 0⟩ 8 1 [c7task] = (false, [c7task]) :=
  ⟨by decide,
   c7_complete_foreign_or_missing_id ⟨2024, 1, 20, 10, 0, 0, 0⟩ 8 1 [c7task]
     (by decide)⟩

/-- C8 counterexample: a Create against a failing disk write completes as
if nothing happened — no error reaches the caller (`errorSignalled` is
`false`, where the claim requires the failure to be reported), the id is
returned, the in-memory list holds the new task, and the disk still holds
the old contents. -/
theorem c8_counterexample_save_failure_silent :
    (add_task_persist false ⟨2024, 1, 20, 9, 0, 0, 0⟩ "x" 7 "средний" none none
      [] []).errorSignalled = false ∧
    (add_task_persist false ⟨2024, 1, 20, 9, 0, 0, 0⟩ "x" 7 "средний" none none
      [] []).returnedId = 1 ∧
    (add_task_persist false ⟨2024, 1, 20, 9, 0, 0, 0⟩ "x" 7 "средний" none none
      [] []).disk = [] ∧
    (add_task_persist false ⟨2024, 1, 20, 9, 0, 0, 0⟩ "x" 7 "средний" none none
      [] []).memory.length = 1 :=
  ⟨rfl, rfl, rfl, rfl⟩

/-- C8 amended: the catch-all handler in `save_tasks` swallows every write
failure, so no failure is ever reported to the caller of Create or
Complete (the error channel is identically `false`); the in-memory
collection after a failed save is exactly the one the mutation produced
before the save (the save never touches memory), and the disk keeps its
previous contents. -/
theorem c8_amended_save_failure_swallowed (tasks disk : List Task)
    (now : DateTime) (text : String) (uid tid : Int) (pr : String)
    (sd st : Option String) :
    save_tasks false tasks disk = (disk, false) ∧
    save_tasks true tasks disk = (tasks, false) ∧
    (add_task_persist false now text uid pr sd st tasks disk).errorSignalled
      = false ∧
    (add_task_persist false now text uid pr sd st tasks disk).memory =
      (add_task now text uid pr sd st tasks).1 ∧
    (add_task_persist false now text uid pr sd st tasks disk).disk = disk ∧
    (mark_task_done_persist false now uid tid tasks disk).2.2.2 = false ∧
    (mark_task_done_persist false now uid tid tasks disk).1 =
      (mark_task_done now uid tid tasks).2 ∧
    (mark_task_done_persist false now uid tid tasks disk).2.1 = disk := by
  refine ⟨rfl, rfl, rfl, rfl, rfl, ?_, ?_, ?_⟩
  · simp only [mark_task_done_persist, save_tasks]
    split <;> rfl
  · simp only [mark_task_done_persist, save_tasks]
    split <;> rfl
  · simp only [mark_task_done_persist, save_tasks]
    split <;> rfl

/-- C10: `get_today_tasks` guards only the parse of `scheduled_date`; as
soon as the store holds an uncompleted task of the owner whose
`created_at` is not a well-formed timestamp, the whole scan aborts with
the propagated parse error instead of skipping that record. -/
theorem c10_malformed_created_at_aborts_scan (today : Date) (uid : Int)
    (tasks : List Task)
    (h : ∃ t ∈ tasks, t.user_id = uid ∧ t.completed = false ∧
           fromisoformat t.created_at = none) :
    ∃ e, get_today_tasks today uid tasks = .error e := by
  induction tasks with
  | nil =>
    obtain ⟨t, ht, _⟩ := h
    exact absurd ht (List.not_mem_nil t)
  | cons t rest ih =>
    obtain ⟨u, hu, hu1, hu2, hu3⟩ := h
    rcases List.mem_cons.mp hu with rfl | hurest
    · exact ⟨u.created_at, by simp [get_today_tasks, hu1, hu2, hu3]⟩
    · by_cases h1 : t.user_id = uid
      · by_cases h2 : t.completed = false
        · cases hdt : fromisoformat t.created_at with
          | none => exact ⟨t.created_at, by simp [get_today_tasks, h1, h2, hdt]⟩
          | some dt =>
            obtain ⟨e, he⟩ := ih ⟨u, hurest, hu1, hu2, hu3⟩
            exact ⟨e, by simp [get_today_tasks, h1, h2, hdt, he]⟩
        · have h2t : t.completed = true := by
            revert h2
            cases t.completed <;> simp
          obtain ⟨e, he⟩ := ih ⟨u, hurest, hu1, hu2, hu3⟩
          exact ⟨e, by simp [get_today_tasks, h2t, he]⟩
      · obtain ⟨e, he⟩ := ih ⟨u, hurest, hu1, hu2, hu3⟩
        exact ⟨e, by simp [get_today_tasks, h1, he]⟩

/-- C10 witness: the theorem applied to a store whose only record carries
`created_at = "garbage"`. -/
theorem c10_witness :
    (∃ t ∈ [c10task], t.user_id = 7 ∧ t.completed = false ∧
       fromisoformat t.created_at = none) ∧
    ∃ e, get_today_tasks ⟨2024, 1, 20⟩ 7 [c10task] = .error e :=
  ⟨⟨c10task, List.mem_cons_self c10task [], rfl, rfl, rfl⟩,
   c10_malformed_created_at_aborts_scan ⟨2024, 1, 20⟩ 7 [c10task]
     ⟨c10task, List.mem_cons_self c10task [], rfl, rfl, rfl⟩⟩

end TodoBot
